import Mathlib

/-!
Verification of the turtle-watch program (`src/main.py`).

The program is embedded shallowly: Python state is explicit Lean state,
floating-point angle arithmetic is modelled with exact rationals, and
side effects (hand updates, alarm triggers, the run loop) are recorded
as explicit event traces.
-/

/-- A wall-clock time as delivered by the clock source
(`datetime.now()`): hour, minute, second as natural numbers. -/
structure WTime where
  hour : Nat
  minute : Nat
  second : Nat
deriving DecidableEq, Repr

/-- Floored real-style modulus on rationals, `x - y * ⌊x / y⌋`.
Used to state the spec's `mod 360` on degree values. -/
def qmod (x y : ℚ) : ℚ := x - y * ⌊x / y⌋

namespace AnalogWatch

/-- `second_angle = current_time.second * 6` from `AnalogWatch.update`
(src/main.py line 157). -/
def second_angle (t : WTime) : ℚ := t.second * 6

/-- `minute_angle = current_time.minute * 6 + current_time.second * 0.1`
from `AnalogWatch.update` (src/main.py line 158). -/
def minute_angle (t : WTime) : ℚ := t.minute * 6 + t.second * (1/10)

/-- `hour_angle = (current_time.hour % 12) * 30 + current_time.minute * 0.5`
from `AnalogWatch.update` (src/main.py line 159). -/
def hour_angle (t : WTime) : ℚ :=
  ((t.hour % 12 : Nat) : ℚ) * 30 + t.minute * (1/2)

end AnalogWatch

/-- An observable action performed during one tick of a watch variant's
update: setting a hand's angle, or firing the alarm trigger hook. -/
inductive WatchEvent
  | setHourHand (a : ℚ)
  | setMinuteHand (a : ℚ)
  | setSecondHand (a : ℚ)
  | triggerAlarm
deriving DecidableEq, Repr

namespace AnalogWatch

/-- The sequence of hand updates performed by `AnalogWatch.update`
(src/main.py lines 162-164): hour hand, then minute hand, then second
hand, each passed the corresponding computed angle. -/
def updateEvents (t : WTime) : List WatchEvent :=
  [WatchEvent.setHourHand (hour_angle t),
   WatchEvent.setMinuteHand (minute_angle t),
   WatchEvent.setSecondHand (second_angle t)]

end AnalogWatch

/-- C1: for every in-range time the analog update passes its hands
exactly the angles second×6 (within [0,354]), (minute×6 + second×0.1)
mod 360 and ((hour mod 12)×30 + minute×0.5) mod 360. -/
theorem analog_update_angles (t : WTime)
    (hh : t.hour < 24) (hm : t.minute < 60) (hs : t.second < 60) :
    AnalogWatch.updateEvents t =
      [WatchEvent.setHourHand (AnalogWatch.hour_angle t),
       WatchEvent.setMinuteHand (AnalogWatch.minute_angle t),
       WatchEvent.setSecondHand (AnalogWatch.second_angle t)] ∧
    AnalogWatch.second_angle t = t.second * 6 ∧
    0 ≤ AnalogWatch.second_angle t ∧ AnalogWatch.second_angle t ≤ 354 ∧
    AnalogWatch.minute_angle t =
      qmod (t.minute * 6 + t.second * (1/10)) 360 ∧
    AnalogWatch.hour_angle t =
      qmod (((t.hour % 12 : Nat) : ℚ) * 30 + t.minute * (1/2)) 360 := by
  refine ⟨rfl, rfl, ?_, ?_, ?_, ?_⟩
  · unfold AnalogWatch.second_angle
    positivity
  · unfold AnalogWatch.second_angle
    have : (t.second : ℚ) ≤ 59 := by exact_mod_cast Nat.le_of_lt_succ hs
    linarith
  · unfold AnalogWatch.minute_angle qmod
    have h1 : (t.minute : ℚ) ≤ 59 := by exact_mod_cast Nat.le_of_lt_succ hm
    have h2 : (t.second : ℚ) ≤ 59 := by exact_mod_cast Nat.le_of_lt_succ hs
    have h3 : (0 : ℚ) ≤ t.minute := by positivity
    have h4 : (0 : ℚ) ≤ t.second := by positivity
    have hfloor : ⌊((t.minute : ℚ) * 6 + t.second * (1/10)) / 360⌋ = 0 := by
      apply Int.floor_eq_zero_iff.mpr
      constructor
      · apply div_nonneg (by linarith) (by norm_num)
      · rw [div_lt_one (by norm_num)]
        linarith
    rw [hfloor]
    ring
  · unfold AnalogWatch.hour_angle qmod
    have h1 : (t.minute : ℚ) ≤ 59 := by exact_mod_cast Nat.le_of_lt_succ hm
    have h3 : (0 : ℚ) ≤ t.minute := by positivity
    have h5 : t.hour % 12 < 12 := Nat.mod_lt _ (by norm_num)
    have h6 : ((t.hour % 12 : Nat) : ℚ) ≤ 11 := by
      exact_mod_cast Nat.le_of_lt_succ h5
    have h7 : (0 : ℚ) ≤ ((t.hour % 12 : Nat) : ℚ) := by positivity
    have hfloor : ⌊(((t.hour % 12 : Nat) : ℚ) * 30 + t.minute * (1/2)) / 360⌋ = 0 := by
      apply Int.floor_eq_zero_iff.mpr
      constructor
      · apply div_nonneg (by linarith) (by norm_num)
      · rw [div_lt_one (by norm_num)]
        linarith
    rw [hfloor]
    ring

/-- Witness for C1 at the concrete time 13:30:45. -/
theorem analog_update_angles_witness :
    (13 : Nat) < 24 ∧ (30 : Nat) < 60 ∧ (45 : Nat) < 60 ∧
    (AnalogWatch.updateEvents ⟨13, 30, 45⟩ =
      [WatchEvent.setHourHand (AnalogWatch.hour_angle ⟨13, 30, 45⟩),
       WatchEvent.setMinuteHand (AnalogWatch.minute_angle ⟨13, 30, 45⟩),
       WatchEvent.setSecondHand (AnalogWatch.second_angle ⟨13, 30, 45⟩)] ∧
     AnalogWatch.second_angle ⟨13, 30, 45⟩ = (45 : Nat) * 6 ∧
     0 ≤ AnalogWatch.second_angle ⟨13, 30, 45⟩ ∧
     AnalogWatch.second_angle ⟨13, 30, 45⟩ ≤ 354 ∧
     AnalogWatch.minute_angle ⟨13, 30, 45⟩ =
       qmod ((30 : Nat) * 6 + (45 : Nat) * (1/10)) 360 ∧
     AnalogWatch.hour_angle ⟨13, 30, 45⟩ =
       qmod ((((13 : Nat) % 12 : Nat) : ℚ) * 30 + (30 : Nat) * (1/2)) 360) :=
  ⟨by decide, by decide, by decide,
   analog_update_angles ⟨13, 30, 45⟩ (by decide) (by decide) (by decide)⟩

/-- Python's `f"{n:02d}"` for a nonnegative integer: decimal digits,
left-padded with zeros to width 2. -/
def pad2 (n : Nat) : String :=
  if n < 10 then "0" ++ toString n else toString n

namespace DigitalWatch

/-- The time string built by `DigitalWatch.update`
(src/main.py lines 194-201), as a function of the configured
`time_format` token and the current time. -/
def timeStr (time_format : String) (t : WTime) : String :=
  if time_format = "12h" then
    let hour0 := t.hour % 12
    let hour := if hour0 = 0 then 12 else hour0
    let am_pm := if t.hour < 12 then "AM" else "PM"
    pad2 hour ++ ":" ++ pad2 t.minute ++ ":" ++ pad2 t.second ++ " " ++ am_pm
  else
    pad2 t.hour ++ ":" ++ pad2 t.minute ++ ":" ++ pad2 t.second

end DigitalWatch

/-- The display hour demanded by the spec for 12h format: 12 for hour 0,
the hour itself for 1-11, 12 for hour 12, hour − 12 for 13-23. -/
def specDisplayHour (h : Nat) : Nat :=
  if h = 0 then 12
  else if h ≤ 11 then h
  else if h = 12 then 12
  else h - 12

/-- Code and spec agree on the 12h display hour for every hour 0..23. -/
theorem displayHour_agrees :
    ∀ h < 24, (if h % 12 = 0 then 12 else h % 12) = specDisplayHour h := by
  decide

/-- C2: the digital update formats t as zero-padded HH:MM:SS under the
24h token, and as hh:MM:SS AM|PM under the 12h token, with the display
hour given by the spec's mapping and suffix AM exactly when hour < 12. -/
theorem digital_update_format (t : WTime) (hh : t.hour < 24) :
    DigitalWatch.timeStr "24h" t =
      pad2 t.hour ++ ":" ++ pad2 t.minute ++ ":" ++ pad2 t.second ∧
    DigitalWatch.timeStr "12h" t =
      pad2 (specDisplayHour t.hour) ++ ":" ++ pad2 t.minute ++ ":" ++
        pad2 t.second ++ " " ++ (if t.hour < 12 then "AM" else "PM") := by
  constructor
  · rfl
  · show (let hour0 := t.hour % 12
          let hour := if hour0 = 0 then 12 else hour0
          let am_pm := if t.hour < 12 then "AM" else "PM"
          pad2 hour ++ ":" ++ pad2 t.minute ++ ":" ++ pad2 t.second
            ++ " " ++ am_pm) = _
    simp only
    rw [displayHour_agrees t.hour hh]

/-- Witness for C2 at time 00:05:09, together with the spec's examples:
hour 0 renders "00:05:09" in 24h and display hour 12 with suffix AM
in 12h; hours 13 and 12 give display hours 1 and 12 with suffix PM. -/
theorem digital_update_format_witness :
    ((0 : Nat) < 24 ∧
     (DigitalWatch.timeStr "24h" ⟨0, 5, 9⟩ =
        pad2 0 ++ ":" ++ pad2 5 ++ ":" ++ pad2 9 ∧
      DigitalWatch.timeStr "12h" ⟨0, 5, 9⟩ =
        pad2 (specDisplayHour 0) ++ ":" ++ pad2 5 ++ ":" ++ pad2 9 ++ " " ++
          (if (0 : Nat) < 12 then "AM" else "PM"))) ∧
    DigitalWatch.timeStr "24h" ⟨0, 5, 9⟩ = "00:05:09" ∧
    DigitalWatch.timeStr "12h" ⟨0, 5, 9⟩ = "12:05:09 AM" ∧
    DigitalWatch.timeStr "12h" ⟨13, 0, 0⟩ = "01:00:00 PM" ∧
    DigitalWatch.timeStr "12h" ⟨12, 0, 0⟩ = "12:00:00 PM" :=
  ⟨⟨by decide, digital_update_format ⟨0, 5, 9⟩ (by decide)⟩,
   by decide, by decide, by decide, by decide⟩

namespace Alarm

/-- The alarm entry list of `Alarm.__init__` (src/main.py line 212):
a Python list of (hour, minute, second) tuples, initially empty. -/
def init : List (Nat × Nat × Nat) := []

/-- `Alarm.add_alarm` (src/main.py lines 214-216): appends the triple
to the list. -/
def add_alarm (alarms : List (Nat × Nat × Nat)) (hour minute second : Nat) :
    List (Nat × Nat × Nat) :=
  alarms ++ [(hour, minute, second)]

/-- `Alarm.remove_alarm` (src/main.py lines 218-224): if the triple is
in the list, remove its first occurrence and return True, else return
False; the result is the returned Bool paired with the new list. -/
def remove_alarm (alarms : List (Nat × Nat × Nat)) (hour minute second : Nat) :
    Bool × List (Nat × Nat × Nat) :=
  if (hour, minute, second) ∈ alarms then
    (true, alarms.erase (hour, minute, second))
  else
    (false, alarms)

/-- `Alarm.check_alarms` (src/main.py lines 226-229): membership test of
the current (hour, minute, second) triple; the body reads but never
writes `self.alarms`, so the state component is returned unchanged. -/
def check_alarms (alarms : List (Nat × Nat × Nat)) (current_time : WTime) :
    Bool × List (Nat × Nat × Nat) :=
  (decide ((current_time.hour, current_time.minute, current_time.second) ∈ alarms),
   alarms)

end Alarm

/-- C3: on a fresh Alarm, addAlarm(7,0,0) makes checkAlarms true at
07:00:00 and false at 07:00:01; removeAlarm(7,0,0) then returns true and
a second removeAlarm(7,0,0) returns false.  In general checkAlarms is
true iff the triple is in the entry list, removeAlarm returns whether a
removal occurred, and a removal deletes one occurrence of the triple
(a miss is a Bool result, never an exception). -/
theorem alarm_add_check_remove (al : List (Nat × Nat × Nat))
    (t : WTime) (h m s : Nat) :
    ((Alarm.check_alarms (Alarm.add_alarm Alarm.init 7 0 0) ⟨7, 0, 0⟩).1 = true ∧
     (Alarm.check_alarms (Alarm.add_alarm Alarm.init 7 0 0) ⟨7, 0, 1⟩).1 = false ∧
     (Alarm.remove_alarm (Alarm.add_alarm Alarm.init 7 0 0) 7 0 0).1 = true ∧
     (Alarm.remove_alarm
        (Alarm.remove_alarm (Alarm.add_alarm Alarm.init 7 0 0) 7 0 0).2
        7 0 0).1 = false) ∧
    ((Alarm.check_alarms al t).1 = true ↔ (t.hour, t.minute, t.second) ∈ al) ∧
    ((Alarm.remove_alarm al h m s).1 = true ↔ (h, m, s) ∈ al) ∧
    ((h, m, s) ∈ al →
      ((Alarm.remove_alarm al h m s).2).count (h, m, s) + 1 =
        al.count (h, m, s)) := by
  refine ⟨by decide, ?_, ?_, ?_⟩
  · simp [Alarm.check_alarms]
  · by_cases hmem : (h, m, s) ∈ al <;> simp [Alarm.remove_alarm, hmem]
  · intro hmem
    have hcount : 0 < al.count (h, m, s) := List.count_pos_iff.mpr hmem
    simp only [Alarm.remove_alarm, if_pos hmem, List.count_erase_self]
    omega

/-- Witness for C3: the general clauses instantiated on the singleton
list [(7,0,0)] at time 07:00:00. -/
theorem alarm_add_check_remove_witness :
    (Alarm.check_alarms [(7, 0, 0)] ⟨7, 0, 0⟩).1 = true ∧
    (Alarm.remove_alarm [(7, 0, 0)] 7 0 0).1 = true ∧
    ((Alarm.remove_alarm [(7, 0, 0)] 7 0 0).2).count (7, 0, 0) + 1 =
      [((7 : Nat), (0 : Nat), (0 : Nat))].count (7, 0, 0) :=
  ⟨((alarm_add_check_remove [(7, 0, 0)] ⟨7, 0, 0⟩ 7 0 0).2.1).mpr (by decide),
   ((alarm_add_check_remove [(7, 0, 0)] ⟨7, 0, 0⟩ 7 0 0).2.2.1).mpr (by decide),
   (alarm_add_check_remove [(7, 0, 0)] ⟨7, 0, 0⟩ 7 0 0).2.2.2 (by decide)⟩

/-- C7 counterexample: with the list-backed Alarm, adding (7,0,0) to a
state already containing it is not a no-op: the list gains a second
copy, one removeAlarm still leaves the triple present (checkAlarms stays
true), and a second removeAlarm returns true, not failure. -/
theorem alarm_duplicate_counterexample :
    Alarm.add_alarm [(7, 0, 0)] 7 0 0 ≠ [(7, 0, 0)] ∧
    (Alarm.remove_alarm (Alarm.add_alarm [(7, 0, 0)] 7 0 0) 7 0 0).1 = true ∧
    (Alarm.check_alarms
       (Alarm.remove_alarm (Alarm.add_alarm [(7, 0, 0)] 7 0 0) 7 0 0).2
       ⟨7, 0, 0⟩).1 = true ∧
    (Alarm.remove_alarm
       (Alarm.remove_alarm (Alarm.add_alarm [(7, 0, 0)] 7 0 0) 7 0 0).2
       7 0 0).1 = true := by
  decide

/-- C7 amended: adding a triple already present appends a second copy;
checkAlarms answers are unchanged at every time, but one removeAlarm per
copy is needed — after the duplicate add, removeAlarm succeeds, the
triple is still present (checkAlarms still true), and a second
removeAlarm succeeds again. -/
theorem alarm_duplicate_appends (al : List (Nat × Nat × Nat)) (h m s : Nat)
    (hmem : (h, m, s) ∈ al) :
    (Alarm.add_alarm al h m s).count (h, m, s) = al.count (h, m, s) + 1 ∧
    (∀ t, (Alarm.check_alarms (Alarm.add_alarm al h m s) t).1 =
            (Alarm.check_alarms al t).1) ∧
    (Alarm.remove_alarm (Alarm.add_alarm al h m s) h m s).1 = true ∧
    (Alarm.check_alarms
       (Alarm.remove_alarm (Alarm.add_alarm al h m s) h m s).2 ⟨h, m, s⟩).1 =
      true ∧
    (Alarm.remove_alarm
       (Alarm.remove_alarm (Alarm.add_alarm al h m s) h m s).2 h m s).1 =
      true := by
  have hmem' : (h, m, s) ∈ Alarm.add_alarm al h m s := by
    simp [Alarm.add_alarm]
  have herase : (Alarm.remove_alarm (Alarm.add_alarm al h m s) h m s).2 =
      al.erase (h, m, s) ++ [(h, m, s)] := by
    unfold Alarm.remove_alarm Alarm.add_alarm
    rw [if_pos (by simp : (h, m, s) ∈ al ++ [(h, m, s)])]
    exact List.erase_append_left _ hmem
  have hmem2 : (h, m, s) ∈ al.erase (h, m, s) ++ [(h, m, s)] := by
    simp
  refine ⟨?_, ?_, ?_, ?_, ?_⟩
  · simp [Alarm.add_alarm]
  · intro t
    simp only [Alarm.check_alarms, Alarm.add_alarm, List.mem_append,
      List.mem_singleton]
    by_cases heq : (t.hour, t.minute, t.second) = (h, m, s)
    · simp [heq, hmem]
    · simp [heq]
  · simp [Alarm.remove_alarm, if_pos hmem']
  · rw [herase]
    simp [Alarm.check_alarms]
  · rw [herase]
    simp [Alarm.remove_alarm, hmem2]

/-- Witness for the amended C7 on the singleton state [(7,0,0)]. -/
theorem alarm_duplicate_appends_witness :
    (Alarm.add_alarm [(7, 0, 0)] 7 0 0).count (7, 0, 0) =
      [((7 : Nat), (0 : Nat), (0 : Nat))].count (7, 0, 0) + 1 ∧
    (Alarm.remove_alarm
       (Alarm.remove_alarm (Alarm.add_alarm [(7, 0, 0)] 7 0 0) 7 0 0).2
       7 0 0).1 = true :=
  ⟨(alarm_duplicate_appends [(7, 0, 0)] 7 0 0 (by decide)).1,
   (alarm_duplicate_appends [(7, 0, 0)] 7 0 0 (by decide)).2.2.2.2⟩

/-- C10: check_alarms never changes the entry list, and a remove_alarm
call that returns false leaves the entry list exactly as it was. -/
theorem alarm_frame_conditions (al : List (Nat × Nat × Nat))
    (t : WTime) (h m s : Nat) :
    (Alarm.check_alarms al t).2 = al ∧
    ((Alarm.remove_alarm al h m s).1 = false →
      (Alarm.remove_alarm al h m s).2 = al) := by
  refine ⟨rfl, ?_⟩
  by_cases hmem : (h, m, s) ∈ al <;> simp [Alarm.remove_alarm, hmem]

/-- Witness for C10 on a state where removal misses. -/
theorem alarm_frame_conditions_witness :
    (Alarm.check_alarms [(7, 0, 0)] ⟨8, 0, 0⟩).2 = [(7, 0, 0)] ∧
    (Alarm.remove_alarm [(7, 0, 0)] 9 0 0).2 = [(7, 0, 0)] :=
  ⟨(alarm_frame_conditions [(7, 0, 0)] ⟨8, 0, 0⟩ 9 0 0).1,
   (alarm_frame_conditions [(7, 0, 0)] ⟨8, 0, 0⟩ 9 0 0).2 (by decide)⟩

namespace WatchWithAlarm

/-- `WatchWithAlarm.check_and_trigger_alarm` (src/main.py lines 242-248):
if the alarm set matches the current time, call the trigger hook and
return True, else return False; the events record whether the hook ran. -/
def check_and_trigger_alarm (alarms : List (Nat × Nat × Nat)) (t : WTime) :
    List WatchEvent × Bool :=
  if (Alarm.check_alarms alarms t).1 then ([WatchEvent.triggerAlarm], true)
  else ([], false)

end WatchWithAlarm

namespace AnalogWatchWithAlarm

/-- `AnalogWatchWithAlarm.update` (src/main.py lines 265-268): run
`AnalogWatch.update` (the `super()` call), then
`check_and_trigger_alarm`; the Bool is the alarm check's report. -/
def updateEvents (alarms : List (Nat × Nat × Nat)) (t : WTime) :
    List WatchEvent × Bool :=
  let r := WatchWithAlarm.check_and_trigger_alarm alarms t
  (AnalogWatch.updateEvents t ++ r.1, r.2)

end AnalogWatchWithAlarm

/-- C4: the with-alarm update is exactly the analog update followed by
the alarm check: its first three events are AnalogWatch's own events in
order, the only possible extra event is one trigger, the trigger hook
runs iff checkAlarms is true at that time, and the reported Bool equals
the checkAlarms result. -/
theorem analog_with_alarm_composition (alarms : List (Nat × Nat × Nat))
    (t : WTime) :
    (AnalogWatchWithAlarm.updateEvents alarms t).1.take 3 =
      AnalogWatch.updateEvents t ∧
    ((AnalogWatchWithAlarm.updateEvents alarms t).1.drop 3 =
        if (Alarm.check_alarms alarms t).1 then [WatchEvent.triggerAlarm]
        else []) ∧
    (WatchEvent.triggerAlarm ∈ (AnalogWatchWithAlarm.updateEvents alarms t).1 ↔
      (Alarm.check_alarms alarms t).1 = true) ∧
    (AnalogWatchWithAlarm.updateEvents alarms t).2 =
      (Alarm.check_alarms alarms t).1 := by
  by_cases hc : (Alarm.check_alarms alarms t).1 = true
  · refine ⟨rfl, ?_, ?_, ?_⟩
    · simp [AnalogWatchWithAlarm.updateEvents,
        WatchWithAlarm.check_and_trigger_alarm, AnalogWatch.updateEvents, hc]
    · simp [AnalogWatchWithAlarm.updateEvents,
        WatchWithAlarm.check_and_trigger_alarm, hc]
    · simp [AnalogWatchWithAlarm.updateEvents,
        WatchWithAlarm.check_and_trigger_alarm, hc]
  · rw [Bool.not_eq_true] at hc
    refine ⟨rfl, ?_, ?_, ?_⟩
    · simp [AnalogWatchWithAlarm.updateEvents,
        WatchWithAlarm.check_and_trigger_alarm, AnalogWatch.updateEvents, hc]
    · simp [AnalogWatchWithAlarm.updateEvents,
        WatchWithAlarm.check_and_trigger_alarm, AnalogWatch.updateEvents, hc]
    · simp [AnalogWatchWithAlarm.updateEvents,
        WatchWithAlarm.check_and_trigger_alarm, hc]

/-- Witness for C4 at time 07:00:00 with the single alarm (7,0,0). -/
theorem analog_with_alarm_composition_witness :
    (AnalogWatchWithAlarm.updateEvents [(7, 0, 0)] ⟨7, 0, 0⟩).1.take 3 =
      AnalogWatch.updateEvents ⟨7, 0, 0⟩ ∧
    (WatchEvent.triggerAlarm ∈
      (AnalogWatchWithAlarm.updateEvents [(7, 0, 0)] ⟨7, 0, 0⟩).1) :=
  ⟨(analog_with_alarm_composition [(7, 0, 0)] ⟨7, 0, 0⟩).1,
   (analog_with_alarm_composition [(7, 0, 0)] ⟨7, 0, 0⟩).2.2.1.mpr (by decide)⟩

/-- A digit on the clock face: `Digit.__init__` (src/main.py lines
11-17) stores value, position and size (the turtle pen is external). -/
structure Digit where
  value : Nat
  position : ℚ × ℚ
  size : ℚ
deriving DecidableEq, Repr

/-- `ClockFace.__init__` state (src/main.py lines 27-33): radius, center
and the digit list, which starts empty. -/
structure ClockFaceState where
  radius : ℚ
  center : ℚ × ℚ
  digits : List Digit
deriving DecidableEq, Repr

namespace ClockFace

/-- `ClockFace.__init__` (src/main.py lines 27-33). -/
def init (radius : ℚ) (center : ℚ × ℚ) : ClockFaceState :=
  { radius := radius, center := center, digits := [] }

/-- `ClockFace.setup` (src/main.py lines 35-37): the body is `pass`, so
the state is returned unchanged and no digits are created. -/
def setup (cf : ClockFaceState) : ClockFaceState := cf

end ClockFace

/-- C5 fails on the code: `ClockFace.setup` is an unimplemented stub, so
for the positive radius 200 it leaves the digit list empty instead of
populating 12 digits as its own docstring and the spec require. -/
theorem clockface_setup_stub :
    (ClockFace.setup (ClockFace.init 200 (0, 0))).digits.length = 0 ∧
    (ClockFace.setup (ClockFace.init 200 (0, 0))).digits.length ≠ 12 ∧
    ClockFace.setup (ClockFace.init 200 (0, 0)) = ClockFace.init 200 (0, 0) := by
  decide

/-- The hand state of `Hand.__init__` (src/main.py lines 47-55): length,
width, color, center, and the angle field initialised to 0. -/
structure HandState where
  length : ℚ
  width : ℚ
  color : String
  center : ℚ × ℚ
  angle : ℚ
deriving DecidableEq, Repr

namespace Hand

/-- `Hand.__init__` (src/main.py lines 47-55). -/
def init (length width : ℚ) (color : String) (center : ℚ × ℚ) : HandState :=
  { length := length, width := width, color := color, center := center,
    angle := 0 }

/-- `Hand.update` (src/main.py lines 61-63): the body is `pass`, so the
angle argument is discarded and the state is returned unchanged. -/
def update (hand : HandState) (angle : ℚ) : HandState := hand

end Hand

/-- C6 fails on the code: `Hand.update` is an unimplemented stub — it
does not throw and draws nothing, but for the finite input 90 it leaves
the angle field at 0 instead of setting it to 90 mod 360 = 90 as its own
docstring and the spec require. -/
theorem hand_update_stub :
    (Hand.update (Hand.init 100 6 "black" (0, 0)) 90).angle = 0 ∧
    qmod 90 360 = 90 ∧
    (Hand.update (Hand.init 100 6 "black" (0, 0)) 90).angle ≠ qmod 90 360 := by
  refine ⟨rfl, ?_, ?_⟩
  · unfold qmod
    norm_num
  · unfold qmod Hand.update Hand.init
    norm_num

/-- The configuration errors named by the spec.  The program itself
defines no such exception type; this type only serves to give the
constructors an error channel in which to (never) fail. -/
inductive ConfigError
  | invalidRadius
  | invalidTimeFormat
  | invalidUpdateInterval
deriving DecidableEq, Repr

/-- The construction-time state of `AnalogWatch.__init__`
(src/main.py lines 139-145): the stored radius and the lengths of the
three hands it builds. -/
structure AnalogWatchState where
  radius : ℚ
  hourHandLength : ℚ
  minuteHandLength : ℚ
  secondHandLength : ℚ
deriving DecidableEq, Repr

namespace AnalogWatch

/-- `AnalogWatch.__init__` (src/main.py lines 139-145): stores the
radius and builds the hands with lengths radius×0.5, 0.7, 0.9.  The
body contains no validation and no raise, so construction always
succeeds, for any radius. -/
def init (radius : ℚ) : Except ConfigError AnalogWatchState :=
  Except.ok
    { radius := radius, hourHandLength := radius * (1/2),
      minuteHandLength := radius * (7/10),
      secondHandLength := radius * (9/10) }

end AnalogWatch

namespace DigitalWatch

/-- `DigitalWatch.__init__` (src/main.py lines 177-181): stores the
`time_format` token verbatim.  No validation, no raise: any token is
accepted, and `update` later treats every token other than "12h" as
the 24h format. -/
def init (time_format : String) : Except ConfigError String :=
  Except.ok time_format

end DigitalWatch

/-- C8 counterexample: constructing with radius −1 and with the
unrecognized format token "banana" both succeed — no ConfigurationError
is raised for an invalid configuration; the bogus token silently
renders as 24h. -/
theorem config_error_counterexample :
    (AnalogWatch.init (-1)).isOk = true ∧
    (DigitalWatch.init "banana").isOk = true ∧
    DigitalWatch.timeStr "banana" ⟨0, 5, 9⟩ = "00:05:09" := by
  refine ⟨rfl, rfl, by decide⟩

/-- C8 amended: the code performs no configuration validation at all —
every radius (including ≤ 0) and every time-format token is silently
accepted at construction, an unrecognized token falls back to 24h
formatting, and no ConfigurationError type exists to be raised. -/
theorem config_no_validation (r : ℚ) (fmt : String) (t : WTime) :
    (AnalogWatch.init r).isOk = true ∧
    (DigitalWatch.init fmt).isOk = true ∧
    (fmt ≠ "12h" → DigitalWatch.timeStr fmt t = DigitalWatch.timeStr "24h" t) := by
  refine ⟨rfl, rfl, ?_⟩
  intro hfmt
  simp [DigitalWatch.timeStr, hfmt]

/-- Witness for the amended C8: radius −1 and token "banana" at time
00:05:09. -/
theorem config_no_validation_witness :
    (AnalogWatch.init (-1)).isOk = true ∧
    DigitalWatch.timeStr "banana" ⟨0, 5, 9⟩ =
      DigitalWatch.timeStr "24h" ⟨0, 5, 9⟩ :=
  ⟨(config_no_validation (-1) "banana" ⟨0, 5, 9⟩).1,
   (config_no_validation (-1) "banana" ⟨0, 5, 9⟩).2.2 (by decide)⟩

/-- One step of the run loop of `Watch.run` (src/main.py lines 123-133):
the one-time setup call, then per tick the update call, the screen
commit (`self.screen.update()`), and the sleep. -/
inductive RunStep
  | setupStep
  | updateStep
  | commitStep
  | sleepStep
deriving DecidableEq, Repr

/-- The two termination signals the except clause of `Watch.run` names:
KeyboardInterrupt and turtle.Terminator. -/
inductive TermSignal
  | keyboardInterrupt
  | terminator
deriving DecidableEq, Repr

/-- How `Watch.run` ends on the observed schedule: the break of the
except clause (clean exit), an exception escaping the loop (never
produced by a termination signal), or the schedule running out while
the loop is still going (the loop alone never stops). -/
inductive RunOutcome
  | cleanExit
  | uncaughtError
  | stillRunning
deriving DecidableEq, Repr

/-- A tick's external input: `none` when no signal arrives during the
iteration, or `some (sig, k)` when signal `sig` is raised during the
iteration after `k` of its three statements have completed. -/
def TickInput : Type := Option (TermSignal × Fin 3)

/-- The steps of a tick completed before an interrupt at point k. -/
def partialTick : Fin 3 → List RunStep
  | 0 => []
  | 1 => [RunStep.updateStep]
  | 2 => [RunStep.updateStep, RunStep.commitStep]

/-- The three steps of an uninterrupted tick of `Watch.run`:
`self.update()`, `self.screen.update()`, `time.sleep(update_interval)`. -/
def fullTick : List RunStep :=
  [RunStep.updateStep, RunStep.commitStep, RunStep.sleepStep]

/-- The `while True` loop of `Watch.run` (src/main.py lines 127-133):
each iteration runs the tick inside try; if a KeyboardInterrupt or
turtle.Terminator arrives, the except clause catches it and breaks. -/
def runLoop : List TickInput → List RunStep × RunOutcome
  | [] => ([], RunOutcome.stillRunning)
  | (none : TickInput) :: rest =>
      let r := runLoop rest
      (fullTick ++ r.1, r.2)
  | (some (_, k) : TickInput) :: _ =>
      (partialTick k, RunOutcome.cleanExit)

/-- `Watch.run` (src/main.py lines 123-133): `self.setup()` once, then
the loop. -/
def watchRun (inputs : List TickInput) : List RunStep × RunOutcome :=
  let r := runLoop inputs
  (RunStep.setupStep :: r.1, r.2)

/-- The loop body never performs setup. -/
theorem runLoop_no_setup (inputs : List TickInput) :
    (runLoop inputs).1.count RunStep.setupStep = 0 := by
  induction inputs with
  | nil => rfl
  | cons i rest ih =>
      match i with
      | none => simp [runLoop, fullTick, ih]
      | some (sig, k) =>
          fin_cases k <;> simp [runLoop, partialTick]

/-- C9: `Watch.run` performs setup exactly once on every schedule; on a
schedule of n completed ticks followed by a termination signal, the
trace is setup, then n full update-commit-sleep cycles, then the part
of the interrupted tick that ran, and the outcome is a clean exit —
never an uncaught error — for either termination signal. -/
theorem watch_run_clean_exit (n : Nat) (sig : TermSignal) (k : Fin 3)
    (rest : List TickInput) :
    (∀ inputs : List TickInput,
      (watchRun inputs).1.count RunStep.setupStep = 1) ∧
    watchRun (List.replicate n (none : TickInput) ++
        (some (sig, k) : TickInput) :: rest) =
      (RunStep.setupStep :: ((List.replicate n fullTick).flatten ++ partialTick k),
       RunOutcome.cleanExit) := by
  constructor
  · intro inputs
    simp [watchRun, runLoop_no_setup]
  · induction n with
    | zero => simp [watchRun, runLoop]
    | succ m ih =>
        have hstep :
            runLoop (List.replicate (m + 1) (none : TickInput) ++
                (some (sig, k) : TickInput) :: rest) =
              (fullTick ++
                 (runLoop (List.replicate m (none : TickInput) ++
                    (some (sig, k) : TickInput) :: rest)).1,
               (runLoop (List.replicate m (none : TickInput) ++
                  (some (sig, k) : TickInput) :: rest)).2) := by
          simp [List.replicate_succ, runLoop]
        have ih' := ih
        simp only [watchRun] at ih' ⊢
        rw [hstep]
        have h1 : (runLoop (List.replicate m (none : TickInput) ++
            (some (sig, k) : TickInput) :: rest)).1 =
            (List.replicate m fullTick).flatten ++ partialTick k := by
          have := congrArg Prod.fst ih'
          simpa using congrArg List.tail this
        have h2 : (runLoop (List.replicate m (none : TickInput) ++
            (some (sig, k) : TickInput) :: rest)).2 =
            RunOutcome.cleanExit := by
          simpa using congrArg Prod.snd ih'
        rw [h1, h2]
        simp [List.replicate_succ, List.flatten]

/-- Witness for C9: two completed ticks, then a KeyboardInterrupt in
the middle of the third tick's sleep. -/
theorem watch_run_clean_exit_witness :
    (watchRun [(none : TickInput)]).1.count RunStep.setupStep = 1 ∧
    watchRun (List.replicate 2 (none : TickInput) ++
        (some (TermSignal.keyboardInterrupt, (2 : Fin 3)) : TickInput) :: []) =
      (RunStep.setupStep ::
         ((List.replicate 2 fullTick).flatten ++ partialTick (2 : Fin 3)),
       RunOutcome.cleanExit) :=
  ⟨(watch_run_clean_exit 2 TermSignal.keyboardInterrupt 2 []).1 [(none : TickInput)],
   (watch_run_clean_exit 2 TermSignal.keyboardInterrupt 2 []).2⟩
